import Mathlib

/-!
Verification development for the `python-nftscan` repository, a thin client
for the NFTScan REST API (`src/nftscan/nftscan_api.py`).

The embedding models:
  * JSON values (`Json`) as exchanged with the API, with integer numbers;
  * the HTTP transport as an oracle (`World.oracle`) assigning a response to
    each successive request, plus a log of sent requests and written files;
  * `_make_request` (`make_request`), `_authenticate` (`authenticate`),
    `_api_request` (`api_request`) and the domain methods
    (`getAllNftByUserAddress`, `getMintByUserAddress`, ...);
  * Python exceptions as an explicit error type (`ApiError`), mapped to the
    specification's error taxonomy by `ApiError.kind`.

The repository's `utils` module (`utils.force_encoded_json`,
`utils.export_file`) is absent from `src/`, so the JSON codec used for file
export is modelled from the spec (see `serializeJson`, `parseJson`).
-/

/-- JSON values, as parsed from response bodies and placed in request
bodies.  Numbers are modelled as integers (the API envelope's `code` field
and all body fields used by this client are integral). -/
inductive Json where
  | null
  | bool (b : Bool)
  | num (n : Int)
  | str (s : String)
  | arr (items : List Json)
  | obj (fields : List (String × Json))
deriving Repr

/-- First-match association lookup, modelling Python `dict` access on a
parsed JSON object (parsed dictionaries have distinct keys). -/
def lookupKey : List (String × Json) → String → Option Json
  | [], _ => none
  | (k, v) :: rest, key => if k = key then some v else lookupKey rest key

/-- Python `dict` item assignment `d[k] = v`: replaces the value at an
existing key in place, else appends the new binding. -/
def setKey : List (String × Json) → String → Json → List (String × Json)
  | [], k, v => [(k, v)]
  | (k1, v1) :: rest, k, v =>
    if k1 = k then (k1, v) :: rest else (k1, v1) :: setKey rest k v

/-- Blankness test used by the `non_blank` validator of the
`parameters_validation` decorators: a string is blank when it is empty or
consists solely of whitespace (Python `not value.strip()`). -/
def isBlank (s : String) : Bool := s.data.all Char.isWhitespace

/-- Modelled from the spec: the JSON codec (Python's `json` module) is an
out-of-scope collaborator, and the repository's `utils.force_encoded_json`
is absent from `src/`; serialization is modelled as the standard compact
JSON rendering.  Escaping for string characters. -/
def escChar (c : Char) : List Char :=
  if c = '"' ∨ c = '\\' then ['\\', c] else [c]

/-- JSON rendering of a string literal: quoted, with `"` and `\` escaped. -/
def serStr (s : String) : List Char :=
  '"' :: (s.data.flatMap escChar ++ ['"'])

/-- The character for a decimal digit. -/
def digitChar (d : Nat) : Char := Char.ofNat (48 + d)

/-- Decimal rendering of a natural number. -/
def natChars (n : Nat) : List Char :=
  if n = 0 then ['0'] else (Nat.digits 10 n).reverse.map digitChar

/-- Decimal rendering of an integer. -/
def intChars (n : Int) : List Char :=
  if n < 0 then '-' :: natChars n.natAbs else natChars n.natAbs

mutual

/-- Modelled from the spec: compact JSON serialization of a value
(`json.dumps`, standing in for the missing `utils.force_encoded_json`). -/
def serVal : Json → List Char
  | .null => 'n' :: 'u' :: 'l' :: 'l' :: []
  | .bool true => 't' :: 'r' :: 'u' :: 'e' :: []
  | .bool false => 'f' :: 'a' :: 'l' :: 's' :: 'e' :: []
  | .num n => intChars n
  | .str s => serStr s
  | .arr xs => '[' :: (serItems xs ++ [']'])
  | .obj fs => Char.ofNat 123 :: (serFields fs ++ [Char.ofNat 125])

/-- Comma-separated serialization of array items. -/
def serItems : List Json → List Char
  | [] => []
  | [x] => serVal x
  | x :: y :: xs => serVal x ++ ',' :: serItems (y :: xs)

/-- Comma-separated serialization of object fields. -/
def serFields : List (String × Json) → List Char
  | [] => []
  | [(k, v)] => serStr k ++ ':' :: serVal v
  | (k, v) :: f2 :: fs => serStr k ++ ':' :: serVal v ++ ',' :: serFields (f2 :: fs)

end

/-- Modelled from the spec: the JSON string written by the file-export path
for a `data` payload. -/
def serializeJson (j : Json) : String := String.mk (serVal j)

/-- Numeric value of a digit character. -/
def digitVal (c : Char) : Nat := c.toNat - 48

/-- Parse a maximal run of decimal digits. -/
def parseNat (cs : List Char) : Option (Nat × List Char) :=
  let ds := cs.takeWhile Char.isDigit
  if ds.isEmpty then none
  else some (ds.foldl (fun a c => 10 * a + digitVal c) 0, cs.dropWhile Char.isDigit)

/-- Parse the remainder of a JSON string literal (after the opening quote),
accumulating decoded characters. -/
def parseStrAux : List Char → List Char → Option (List Char × List Char)
  | [], _ => none
  | c :: rest, acc =>
    if c = '\\' then
      match rest with
      | [] => none
      | d :: rest2 => parseStrAux rest2 (acc ++ [d])
    else if c = '"' then some (acc, rest)
    else parseStrAux rest (acc ++ [c])

/-- Parse the keyword tail `ull` of `null`. -/
def expectNull : List Char → Option (Json × List Char)
  | 'u' :: 'l' :: 'l' :: r => some (.null, r)
  | _ => none

/-- Parse the keyword tail `rue` of `true`. -/
def expectTrue : List Char → Option (Json × List Char)
  | 'r' :: 'u' :: 'e' :: r => some (.bool true, r)
  | _ => none

/-- Parse the keyword tail `alse` of `false`. -/
def expectFalse : List Char → Option (Json × List Char)
  | 'a' :: 'l' :: 's' :: 'e' :: r => some (.bool false, r)
  | _ => none

mutual

/-- Modelled from the spec: fuel-bounded JSON parser (`json.loads`), the
codec inverse used to state the file-export round trip. -/
def parseVal : Nat → List Char → Option (Json × List Char)
  | 0, _ => none
  | _ + 1, [] => none
  | fuel + 1, c :: rest =>
    if c = '"' then (parseStrAux rest []).map (fun p => (Json.str (String.mk p.1), p.2))
    else if c = '-' then (parseNat rest).map (fun p => (Json.num (-(p.1 : Int)), p.2))
    else if c.isDigit then (parseNat (c :: rest)).map (fun p => (Json.num (p.1 : Int), p.2))
    else if c = '[' then (parseItems fuel rest).map (fun p => (Json.arr p.1, p.2))
    else if c = Char.ofNat 123 then (parseFields fuel rest).map (fun p => (Json.obj p.1, p.2))
    else if c = 'n' then expectNull rest
    else if c = 't' then expectTrue rest
    else if c = 'f' then expectFalse rest
    else none

/-- Parse array items up to the closing bracket. -/
def parseItems : Nat → List Char → Option (List Json × List Char)
  | 0, _ => none
  | _ + 1, [] => none
  | fuel + 1, c :: rest =>
    if c = ']' then some ([], rest)
    else
      (parseVal fuel (c :: rest)).bind (fun p =>
        if p.2.head? = some ',' then
          (parseItems fuel p.2.tail).map (fun q => (p.1 :: q.1, q.2))
        else if p.2.head? = some ']' then some ([p.1], p.2.tail)
        else none)

/-- Parse object fields up to the closing brace. -/
def parseFields : Nat → List Char → Option (List (String × Json) × List Char)
  | 0, _ => none
  | _ + 1, [] => none
  | fuel + 1, c :: rest =>
    if c = Char.ofNat 125 then some ([], rest)
    else if c = '"' then
      (parseStrAux rest []).bind (fun kp =>
        if kp.2.head? = some ':' then
          (parseVal fuel kp.2.tail).bind (fun vp =>
            if vp.2.head? = some ',' then
              (parseFields fuel vp.2.tail).map (fun q => ((String.mk kp.1, vp.1) :: q.1, q.2))
            else if vp.2.head? = some (Char.ofNat 125) then
              some ([(String.mk kp.1, vp.1)], vp.2.tail)
            else none)
        else none)
    else none

end

/-- Modelled from the spec: parsing a written export file back into a JSON
value (`json.loads` on the whole file contents). -/
def parseJson (s : String) : Option Json :=
  match parseVal (s.data.length + 1) s.data with
  | some (v, []) => some v
  | _ => none

theorem digitVal_digitChar (d : Nat) (h : d < 10) : digitVal (digitChar d) = d := by
  interval_cases d <;> decide

theorem isDigit_digitChar (d : Nat) (h : d < 10) : (digitChar d).isDigit = true := by
  interval_cases d <;> decide

theorem natChars_all_digit (n : Nat) : ∀ c ∈ natChars n, c.isDigit = true := by
  intro c hc
  unfold natChars at hc
  split at hc
  · simp at hc; subst hc; decide
  · simp only [List.mem_map, List.mem_reverse] at hc
    obtain ⟨d, hd, rfl⟩ := hc
    exact isDigit_digitChar d (Nat.digits_lt_base (by norm_num) hd)

theorem natChars_ne_nil (n : Nat) : natChars n ≠ [] := by
  unfold natChars
  split
  · simp
  · simp [Nat.digits_ne_nil_iff_ne_zero, *]

theorem foldr_ofDigits (l : List Nat) :
    l.foldr (fun d a => 10 * a + d) 0 = Nat.ofDigits 10 l := by
  induction l with
  | nil => simp [Nat.ofDigits]
  | cons d l ih => simp [Nat.ofDigits_cons, ih]; omega

theorem foldl_natChars (n : Nat) :
    (natChars n).foldl (fun a c => 10 * a + digitVal c) 0 = n := by
  unfold natChars
  split
  · subst ‹n = 0›; decide
  · rw [List.foldl_map, List.foldl_reverse]
    have h : ((Nat.digits 10 n).foldr (fun d a => 10 * a + digitVal (digitChar d)) 0) =
        ((Nat.digits 10 n).foldr (fun d a => 10 * a + d) 0) := by
      apply List.foldr_ext
      intro d hd b
      rw [digitVal_digitChar d (Nat.digits_lt_base (by norm_num) hd)]
    rw [h, foldr_ofDigits, Nat.ofDigits_digits]

theorem takeWhile_all_append (p : Char → Bool) (l rest : List Char)
    (h : ∀ c ∈ l, p c = true) (h2 : ∀ c, rest.head? = some c → p c = false) :
    (l ++ rest).takeWhile p = l ∧ (l ++ rest).dropWhile p = rest := by
  induction l with
  | nil =>
    simp only [List.nil_append]
    cases rest with
    | nil => simp
    | cons r rs =>
      have := h2 r rfl
      simp [List.takeWhile, List.dropWhile, this]
  | cons c l ih =>
    have hc := h c (by simp)
    have ihr := ih (fun x hx => h x (by simp [hx]))
    simp [List.takeWhile, List.dropWhile, hc, ihr.1, ihr.2]

theorem parseNat_natChars (n : Nat) (rest : List Char)
    (h2 : ∀ c, rest.head? = some c → c.isDigit = false) :
    parseNat (natChars n ++ rest) = some (n, rest) := by
  obtain ⟨htake, hdrop⟩ := takeWhile_all_append Char.isDigit (natChars n) rest
    (natChars_all_digit n) h2
  unfold parseNat
  simp only [htake, hdrop, List.isEmpty_iff, natChars_ne_nil, if_false, foldl_natChars]

theorem parseStrAux_ser (l : List Char) : ∀ (acc rest : List Char),
    parseStrAux (l.flatMap escChar ++ '"' :: rest) acc = some (acc ++ l, rest) := by
  induction l with
  | nil =>
    intro acc rest
    unfold parseStrAux
    simp
  | cons c l ih =>
    intro acc rest
    by_cases hc : c = '"' ∨ c = '\\'
    · simp only [List.flatMap_cons, escChar, if_pos hc, List.cons_append, List.append_assoc]
      unfold parseStrAux
      simp [ih]
    · push_neg at hc
      simp only [List.flatMap_cons, escChar, if_neg (not_or.mpr hc), List.cons_append,
        List.append_assoc]
      unfold parseStrAux
      simp [hc.1, hc.2, ih]

mutual

def fVal : Json → Nat
  | .null => 1
  | .bool _ => 1
  | .num _ => 1
  | .str _ => 1
  | .arr xs => fItems xs + 1
  | .obj fs => fFields fs + 1

def fItems : List Json → Nat
  | [] => 1
  | x :: xs => max (fVal x) (fItems xs) + 1

def fFields : List (String × Json) → Nat
  | [] => 1
  | kv :: fs => max (fVal kv.2) (fFields fs) + 1

end

theorem fVal_pos (j : Json) : 1 ≤ fVal j := by
  cases j <;> simp [fVal]

theorem serVal_head (j : Json) : ∃ c cs, serVal j = c :: cs ∧ c ≠ ']' := by
  cases j with
  | null => exact ⟨'n', _, by unfold serVal; rfl, by decide⟩
  | bool b => cases b with
    | false => exact ⟨'f', _, by unfold serVal; rfl, by decide⟩
    | true => exact ⟨'t', _, by unfold serVal; rfl, by decide⟩
  | num n =>
    by_cases hn : n < 0
    · refine ⟨'-', natChars n.natAbs, ?_, by decide⟩
      unfold serVal intChars
      rw [if_pos hn]
    · obtain ⟨c, t, hct⟩ := List.exists_cons_of_ne_nil (natChars_ne_nil n.natAbs)
      refine ⟨c, t, ?_, ?_⟩
      · unfold serVal intChars
        rw [if_neg hn, hct]
      · have hd := natChars_all_digit n.natAbs c (by rw [hct]; simp)
        intro h
        rw [h] at hd
        simp at hd
  | str s => exact ⟨'"', _, by unfold serVal serStr; rfl, by decide⟩
  | arr xs => exact ⟨'[', _, by unfold serVal; rfl, by decide⟩
  | obj fs => exact ⟨Char.ofNat 123, _, by unfold serVal; rfl, by decide⟩

theorem fItems_pos (xs : List Json) : 1 ≤ fItems xs := by
  cases xs <;> simp [fItems]

theorem fFields_pos (fs : List (String × Json)) : 1 ≤ fFields fs := by
  cases fs <;> simp [fFields]

theorem serItems_cons2 (x y : Json) (ys : List Json) :
    serItems (x :: y :: ys) = serVal x ++ ',' :: serItems (y :: ys) := by
  conv_lhs => unfold serItems

theorem serItems_one (x : Json) : serItems [x] = serVal x := by
  unfold serItems
  rfl

theorem serFields_cons2 (kv kv2 : String × Json) (fs : List (String × Json)) :
    serFields (kv :: kv2 :: fs) = serStr kv.1 ++ ':' :: serVal kv.2 ++ ',' :: serFields (kv2 :: fs) := by
  conv_lhs => unfold serFields

theorem serFields_one (kv : String × Json) : serFields [kv] = serStr kv.1 ++ ':' :: serVal kv.2 := by
  conv_lhs => unfold serFields

theorem fVal_arr (xs : List Json) : fVal (.arr xs) = fItems xs + 1 := by
  conv_lhs => unfold fVal

theorem fVal_obj (fs : List (String × Json)) : fVal (.obj fs) = fFields fs + 1 := by
  conv_lhs => unfold fVal

theorem fItems_cons (x : Json) (xs : List Json) : fItems (x :: xs) = max (fVal x) (fItems xs) + 1 := by
  conv_lhs => unfold fItems

theorem fFields_cons (kv : String × Json) (fs : List (String × Json)) :
    fFields (kv :: fs) = max (fVal kv.2) (fFields fs) + 1 := by
  conv_lhs => unfold fFields

mutual

theorem parseVal_ser (j : Json) : ∀ (fuel : Nat) (rest : List Char),
    fVal j ≤ fuel → (∀ c, rest.head? = some c → c.isDigit = false) →
    parseVal fuel (serVal j ++ rest) = some (j, rest) := by
  intro fuel rest hfuel hrest
  obtain ⟨f, rfl⟩ : ∃ f, fuel = f + 1 := ⟨fuel - 1, by have := fVal_pos j; omega⟩
  cases j with
  | null =>
    unfold serVal
    unfold parseVal
    simp [expectNull]
  | bool b =>
    cases b with
    | false =>
      unfold serVal
      unfold parseVal
      simp [expectFalse]
    | true =>
      unfold serVal
      unfold parseVal
      simp [expectTrue]
  | num n =>
    have hser : serVal (.num n) = intChars n := by unfold serVal; rfl
    rw [hser]
    unfold intChars
    by_cases hn : n < 0
    · rw [if_pos hn, List.cons_append]
      unfold parseVal
      rw [parseNat_natChars n.natAbs rest hrest]
      have h3 : (-(n.natAbs : Int)) = n := by omega
      simp only [Option.map_some']
      rw [h3]
      simp
    · rw [if_neg hn]
      obtain ⟨c, t, hct⟩ := List.exists_cons_of_ne_nil (natChars_ne_nil n.natAbs)
      have hd : c.isDigit = true := natChars_all_digit n.natAbs c (by rw [hct]; simp)
      have h1 : ¬(c = '"') := by intro h; rw [h] at hd; simp at hd
      have h2 : ¬(c = '-') := by intro h; rw [h] at hd; simp at hd
      rw [hct, List.cons_append]
      unfold parseVal
      rw [if_neg h1, if_neg h2, if_pos hd, ← List.cons_append, ← hct,
        parseNat_natChars n.natAbs rest hrest]
      have h3 : ((n.natAbs : Nat) : Int) = n := by omega
      simp only [Option.map_some']
      rw [h3]
  | str s =>
    have hser : serVal (.str s) = serStr s := by unfold serVal; rfl
    rw [hser]
    unfold serStr
    rw [List.cons_append]
    unfold parseVal
    rw [List.append_assoc]
    simp only [List.singleton_append]
    rw [parseStrAux_ser s.data [] rest]
    simp
  | arr xs =>
    have hser : serVal (.arr xs) = '[' :: (serItems xs ++ [']']) := by unfold serVal; rfl
    have hf : fItems xs ≤ f := by rw [fVal_arr] at hfuel; omega
    rw [hser, List.cons_append]
    unfold parseVal
    rw [List.append_assoc]
    simp only [List.singleton_append]
    rw [parseItems_ser xs f rest hf]
    simp
  | obj fs =>
    have hser : serVal (.obj fs) = Char.ofNat 123 :: (serFields fs ++ [Char.ofNat 125]) := by
      unfold serVal
      rfl
    have hf : fFields fs ≤ f := by rw [fVal_obj] at hfuel; omega
    rw [hser, List.cons_append]
    unfold parseVal
    rw [List.append_assoc]
    simp only [List.singleton_append]
    rw [parseFields_ser fs f rest hf]
    simp

theorem parseItems_ser (xs : List Json) : ∀ (fuel : Nat) (rest : List Char),
    fItems xs ≤ fuel →
    parseItems fuel (serItems xs ++ ']' :: rest) = some (xs, rest) := by
  intro fuel rest hfuel
  obtain ⟨f, rfl⟩ : ∃ f, fuel = f + 1 := ⟨fuel - 1, by have := fItems_pos xs; omega⟩
  cases xs with
  | nil =>
    have hser : serItems [] = ([] : List Char) := by unfold serItems; rfl
    rw [hser, List.nil_append]
    unfold parseItems
    simp
  | cons x xs =>
    obtain ⟨c, cs, hc, hcne⟩ := serVal_head x
    have hfx : fVal x ≤ f := by rw [fItems_cons] at hfuel; omega
    cases xs with
    | nil =>
      rw [serItems_one, hc, List.cons_append]
      unfold parseItems
      rw [if_neg hcne, ← List.cons_append, ← hc,
        parseVal_ser x f (']' :: rest) hfx (by intro c2 h2; simp at h2; subst h2; rfl)]
      simp
    | cons y ys =>
      have hfxs : fItems (y :: ys) ≤ f := by rw [fItems_cons] at hfuel; omega
      rw [serItems_cons2, List.append_assoc, List.cons_append, hc, List.cons_append]
      unfold parseItems
      rw [if_neg hcne, ← List.cons_append, ← hc,
        parseVal_ser x f (',' :: (serItems (y :: ys) ++ ']' :: rest)) hfx
          (by intro c2 h2; simp at h2; subst h2; rfl)]
      simp only [Option.some_bind, List.head?_cons, List.tail_cons]
      simp only [if_true, reduceIte]
      rw [parseItems_ser (y :: ys) f rest hfxs]
      simp

theorem parseFields_ser (fs : List (String × Json)) : ∀ (fuel : Nat) (rest : List Char),
    fFields fs ≤ fuel →
    parseFields fuel (serFields fs ++ Char.ofNat 125 :: rest) = some (fs, rest) := by
  intro fuel rest hfuel
  obtain ⟨f, rfl⟩ : ∃ f, fuel = f + 1 := ⟨fuel - 1, by have := fFields_pos fs; omega⟩
  cases fs with
  | nil =>
    have hser : serFields [] = ([] : List Char) := by unfold serFields; rfl
    rw [hser, List.nil_append]
    unfold parseFields
    simp
  | cons kv fs =>
    have hfv : fVal kv.2 ≤ f := by rw [fFields_cons] at hfuel; omega
    cases fs with
    | nil =>
      rw [serFields_one]
      unfold serStr
      simp only [List.cons_append, List.append_assoc, List.singleton_append]
      unfold parseFields
      rw [if_neg (show ¬('"' = Char.ofNat 125) by decide), if_pos rfl,
        parseStrAux_ser kv.1.data []]
      simp only [List.nil_append, Option.some_bind, List.head?_cons, List.tail_cons]
      simp only [if_true, reduceIte]
      rw [parseVal_ser kv.2 f (Char.ofNat 125 :: rest) hfv
        (by intro c2 h2; simp at h2; subst h2; rfl)]
      simp
    | cons kv2 fs =>
      have hffs : fFields (kv2 :: fs) ≤ f := by rw [fFields_cons] at hfuel; omega
      rw [serFields_cons2]
      unfold serStr
      simp only [List.cons_append, List.append_assoc, List.singleton_append]
      unfold parseFields
      rw [if_neg (show ¬('"' = Char.ofNat 125) by decide), if_pos rfl,
        parseStrAux_ser kv.1.data []]
      simp only [List.nil_append, Option.some_bind, List.head?_cons, List.tail_cons]
      simp only [if_true, reduceIte]
      rw [parseVal_ser kv.2 f (',' :: (serFields (kv2 :: fs) ++ Char.ofNat 125 :: rest)) hfv
        (by intro c2 h2; simp at h2; subst h2; rfl)]
      simp only [Option.some_bind, List.head?_cons, List.tail_cons]
      simp only [if_true, reduceIte]
      rw [parseFields_ser (kv2 :: fs) f rest hffs]
      simp

end

theorem serVal_length_pos (j : Json) : 1 ≤ (serVal j).length := by
  obtain ⟨c, cs, hc, _⟩ := serVal_head j
  rw [hc]
  simp

mutual

theorem fVal_le (j : Json) : fVal j ≤ (serVal j).length := by
  cases j with
  | null =>
    have h1 : fVal .null = 1 := by unfold fVal; rfl
    have h2 : serVal .null = 'n' :: 'u' :: 'l' :: 'l' :: [] := by unfold serVal; rfl
    rw [h1, h2]
    simp
  | bool b =>
    have h1 : fVal (.bool b) = 1 := by unfold fVal; rfl
    rw [h1]
    exact serVal_length_pos _
  | num n =>
    have h1 : fVal (.num n) = 1 := by unfold fVal; rfl
    rw [h1]
    exact serVal_length_pos _
  | str s =>
    have h1 : fVal (.str s) = 1 := by unfold fVal; rfl
    rw [h1]
    exact serVal_length_pos _
  | arr xs =>
    have h2 : serVal (.arr xs) = '[' :: (serItems xs ++ [']']) := by unfold serVal; rfl
    have h3 := fItems_le xs
    rw [fVal_arr, h2]
    simp
    omega
  | obj fs =>
    have h2 : serVal (.obj fs) = Char.ofNat 123 :: (serFields fs ++ [Char.ofNat 125]) := by
      unfold serVal
      rfl
    have h3 := fFields_le fs
    rw [fVal_obj, h2]
    simp
    omega

theorem fItems_le (xs : List Json) : fItems xs ≤ (serItems xs).length + 1 := by
  cases xs with
  | nil =>
    have h1 : fItems [] = 1 := by unfold fItems; rfl
    rw [h1]
    omega
  | cons x xs =>
    have hx := fVal_le x
    have hxpos := serVal_length_pos x
    cases xs with
    | nil =>
      rw [fItems_cons, serItems_one]
      have h1 : fItems ([] : List Json) = 1 := by unfold fItems; rfl
      rw [h1]
      omega
    | cons y ys =>
      have hys := fItems_le (y :: ys)
      rw [fItems_cons, serItems_cons2]
      simp
      omega

theorem fFields_le (fs : List (String × Json)) : fFields fs ≤ (serFields fs).length + 1 := by
  cases fs with
  | nil =>
    have h1 : fFields [] = 1 := by unfold fFields; rfl
    rw [h1]
    omega
  | cons kv fs =>
    have hv := fVal_le kv.2
    have hvpos := serVal_length_pos kv.2
    cases fs with
    | nil =>
      rw [fFields_cons, serFields_one]
      have h1 : fFields ([] : List (String × Json)) = 1 := by unfold fFields; rfl
      rw [h1]
      simp
      omega
    | cons kv2 fs =>
      have hrest := fFields_le (kv2 :: fs)
      rw [fFields_cons, serFields_cons2]
      simp
      omega

end

theorem parseJson_serializeJson (j : Json) : parseJson (serializeJson j) = some j := by
  unfold parseJson serializeJson
  have h := parseVal_ser j ((serVal j).length + 1) []
    (by have := fVal_le j; omega) (by intro c hcon; simp at hcon)
  rw [List.append_nil] at h
  simp [h]

/-- Python exceptions raised by the client, as an explicit error type.
`valueError`, `httpError`, `connectionError`, `sslError`, `timeoutError`
model the five `raise` statements of the status mapping in `_make_request`;
`noCode` and `noData` model the two generic `Exception`s for a missing
envelope field; `jsonDecodeError` models `response.json()` failing;
`attributeError` models `.keys()` on a non-dict body; `keyError` and
`typeError` model subscript failures in `_authenticate`; `invalidArgument`
models the `parameters_validation` decorator errors. -/
inductive ApiError where
  | invalidArgument (arg : String)
  | valueError (msg : String)
  | httpError (msg : String)
  | connectionError (msg : String)
  | sslError (msg : String)
  | timeoutError (msg : String)
  | noCode
  | noData
  | jsonDecodeError
  | attributeError
  | keyError (key : String)
  | typeError
deriving DecidableEq, Repr

/-- The specification's error taxonomy (section 7 of the spec). -/
inductive ErrorKind where
  | invalidArgument
  | badRequest
  | unauthorized
  | forbidden
  | tlsError
  | gatewayTimeout
  | malformedResponse
  | other
deriving DecidableEq, Repr

/-- Mapping from the raised Python exception to the spec's error taxonomy:
`ValueError` from the status mapping is `BadRequest`, `HTTPError` is
`Unauthorized`, `ConnectionError` is `Forbidden`, `SSLError` is `TlsError`,
`TimeoutError` is `GatewayTimeout`; missing-envelope-field and JSON-decode
errors (including a missing `accessToken`/`expiration` in the auth
exchange) are `MalformedResponse`. -/
def ApiError.kind : ApiError → ErrorKind
  | .invalidArgument _ => .invalidArgument
  | .valueError _ => .badRequest
  | .httpError _ => .unauthorized
  | .connectionError _ => .forbidden
  | .sslError _ => .tlsError
  | .timeoutError _ => .gatewayTimeout
  | .noCode => .malformedResponse
  | .noData => .malformedResponse
  | .jsonDecodeError => .malformedResponse
  | .attributeError => .malformedResponse
  | .keyError _ => .malformedResponse
  | .typeError => .other

/-- An HTTP request as issued by `requests.post(url, headers=headers,
data=json.dumps(data))`: the `url`, the header mapping (absent when the
Python call passes `headers=None`, as the auth exchange does), and the
Python value serialized into the body. -/
structure HttpRequest where
  url : String
  headers : Option (List (String × Json))
  body : Option Json
deriving Repr

/-- An HTTP response as seen by the client: transport status code, raw
text, and the JSON body (`none` when `response.json()` would raise). -/
structure HttpResponse where
  status_code : Int
  text : String
  jsonBody : Option Json
deriving Repr

/-- The external world: a transport oracle giving the response to the
`n`-th request issued, the current clock, the log of requests sent so far,
and the log of file writes performed. -/
structure World where
  oracle : Nat → HttpResponse
  time : Int
  sent : List HttpRequest
  files : List (String × String)

/-- The transport-level status mapping of `_make_request` (first `if`
chain): 400, 401, 403, 495 and 504 raise; anything else falls through. -/
def transportCheck (resp : HttpResponse) : Option ApiError :=
  if resp.status_code = 400 then some (.valueError resp.text)
  else if resp.status_code = 401 then some (.httpError resp.text)
  else if resp.status_code = 403 then some (.connectionError "The server blocked access.")
  else if resp.status_code = 495 then some (.sslError "SSL certificate error")
  else if resp.status_code = 504 then some (.timeoutError "The server reported a gateway time-out error.")
  else none

/-- The in-body status mapping of `_make_request` (second `if` chain),
applied to the envelope's `code` value; Python `==` between the JSON value
and an `int` literal is true exactly for the equal JSON number. -/
def bodyCodeCheck (code : Json) (text : String) : Option ApiError :=
  match code with
  | .num n =>
    if n = 400 then some (.valueError text)
    else if n = 401 then some (.httpError text)
    else if n = 403 then some (.connectionError "The server blocked access.")
    else if n = 495 then some (.sslError "SSL certificate error")
    else if n = 504 then some (.timeoutError "The server reported a gateway time-out error.")
    else none
  | _ => none

/-- Body inspection of `_make_request`: parse the body as JSON
(`response.json()`), require a `code` key and a `data` key (`.keys()` on a
non-dict raises `AttributeError`), then re-apply the status mapping to the
embedded `code`; on success the envelope's `data` value is the result. -/
def inspectBody (resp : HttpResponse) : Except ApiError Json :=
  match resp.jsonBody with
  | none => .error .jsonDecodeError
  | some j =>
    match j with
    | .obj fields =>
      match lookupKey fields "code" with
      | none => .error .noCode
      | some code =>
        match lookupKey fields "data" with
        | none => .error .noData
        | some d =>
          match bodyCodeCheck code resp.text with
          | some e => .error e
          | none => .ok d
    | _ => .error .attributeError

/-- The complete response handling of `_make_request` for one transport
response: transport-level status mapping first, body inspection second. -/
def responseOutcome (resp : HttpResponse) : Except ApiError Json :=
  match transportCheck resp with
  | some e => .error e
  | none => inspectBody resp

/-- Result of `_make_request`: the envelope's `data` value, or the raw
response object when `return_response` was requested. -/
inductive MakeResult where
  | data (d : Json)
  | response (r : HttpResponse)
deriving Repr

/-- `_make_request`: validates `url` non-blank (decorator), posts the
request, applies the dual status mapping, optionally exports the
JSON-serialized `data` to `export_file_name`, and returns `data` (or the
raw response). -/
def make_request (w : World) (url : String) (headers : Option (List (String × Json)))
    (data : Option Json) (export_file_name : String) (return_response : Bool) :
    World × Except ApiError MakeResult :=
  if isBlank url then (w, .error (.invalidArgument "url"))
  else
    let resp := w.oracle w.sent.length
    let w1 : World := { w with sent := w.sent ++ [⟨url, headers, data⟩] }
    match responseOutcome resp with
    | .error e => (w1, .error e)
    | .ok d =>
      let w2 : World :=
        if export_file_name = "" then w1
        else { w1 with files := w1.files ++ [(export_file_name, serializeJson d)] }
      (w2, .ok (if return_response then .response resp else .data d))

/-- The client's mutable state: credentials (immutable), the assembled
`api_url`, the current access token, the token expiry timestamp, and the
outgoing-header template (initially just `Content-Type`). -/
structure ClientState where
  apiKey : String
  apiSecret : String
  api_url : String
  accessToken : Option Json
  expiration : Option Int
  headers : List (String × Json)

/-- The fixed authentication URL with the raw key/secret embedded as query
parameters, exactly as assembled by `_authenticate`. -/
def authUrl (apiKey apiSecret : String) : String :=
  "https://restapi.nftscan.com/gw/token?apiKey=" ++ apiKey ++ "&apiSecret=" ++ apiSecret

/-- Python subscript `j[k]` on a JSON value: `KeyError` for a missing key
on a dict, `TypeError` on anything that is not a dict. -/
def subscript (j : Json) (k : String) : Except ApiError Json :=
  match j with
  | .obj fields =>
    match lookupKey fields k with
    | some v => .ok v
    | none => .error (.keyError k)
  | _ => .error .typeError

/-- `_authenticate`: one `_make_request` against the auth URL with no
headers and no body, then `accessToken` is stored, the expiry is computed
from `expiration`, and `Access-Token` is merged into the header template.
State updates follow the source's statement order: `accessToken` is
assigned before `expiration` is read, and the header merge comes last. -/
def authenticate (st : ClientState) (w : World) :
    ClientState × World × Except ApiError Unit :=
  match make_request w (authUrl st.apiKey st.apiSecret) none none "" false with
  | (w1, .error e) => (st, w1, .error e)
  | (w1, .ok (.response _)) => (st, w1, .error .typeError)
  | (w1, .ok (.data result)) =>
    match subscript result "accessToken" with
    | .error e => (st, w1, .error e)
    | .ok tok =>
      let st1 : ClientState := { st with accessToken := some tok }
      match subscript result "expiration" with
      | .error e => (st1, w1, .error e)
      | .ok (.num secs) =>
        ({ st1 with expiration := some (w1.time + secs),
                    headers := setKey st1.headers "Access-Token" tok }, w1, .ok ())
      | .ok _ => (st1, w1, .error .typeError)

/-- The client state reached by a successful `_authenticate` that obtained
token `tok` with expiry seconds computed into absolute time `texp`. -/
def authedState (st : ClientState) (tok : Json) (texp : Int) : ClientState :=
  { st with accessToken := some tok,
            expiration := some texp,
            headers := setKey st.headers "Access-Token" tok }

/-- The outcome of the authentication exchange as a function of the
transport response it consumes: the pipeline outcome, then `accessToken`
and `expiration` extracted from the returned `data` value. -/
def authOutcome (resp : HttpResponse) : Except ApiError (Json × Int) :=
  match responseOutcome resp with
  | .error e => .error e
  | .ok result =>
    match subscript result "accessToken" with
    | .error e => .error e
    | .ok tok =>
      match subscript result "expiration" with
      | .error e => .error e
      | .ok (.num secs) => .ok (tok, secs)
      | .ok _ => .error .typeError

/-- `_api_request`: validates `endpoint` non-blank (decorator), issues one
`_make_request` with the current header template; on ANY error it calls
`_authenticate` and retries `_make_request` exactly once, returning the
retry's result (the first error is discarded). -/
def api_request (st : ClientState) (w : World) (endpoint : String) (data : Option Json)
    (export_file_name : String) (return_response : Bool) :
    ClientState × World × Except ApiError MakeResult :=
  if isBlank endpoint then (st, w, .error (.invalidArgument "endpoint"))
  else
    let url := st.api_url ++ "/" ++ endpoint
    match make_request w url (some st.headers) data export_file_name return_response with
    | (w1, .ok r) => (st, w1, .ok r)
    | (w1, .error _) =>
      match authenticate st w1 with
      | (st2, w2, .error ea) => (st2, w2, .error ea)
      | (st2, w2, .ok _) =>
        match make_request w2 url (some st2.headers) data export_file_name return_response with
        | (w3, r) => (st2, w3, r)

/-- `NftScanAPI.__init__`: validates key and secret non-blank, assembles
`api_url` from the base URL and version, and initialises the header
template with `Content-Type` only (no token yet). -/
def initClient (apiKey apiSecret base_url version : String) :
    Except ApiError ClientState :=
  if isBlank apiKey then .error (.invalidArgument "apiKey")
  else if isBlank apiSecret then .error (.invalidArgument "apiSecret")
  else .ok { apiKey := apiKey, apiSecret := apiSecret,
             api_url := base_url ++ "/" ++ version,
             accessToken := none, expiration := none,
             headers := [("Content-Type", .str "application/json")] }

/-- The maximum page size constant `MAX_PAGE_SIZE` of `NftScanAPI`. -/
def MAX_PAGE_SIZE : Int := 100

/-- The `erc_valid` validator: `erc` must be `erc721` or `erc1155`. -/
def ercValid (erc : String) : Bool := erc = "erc721" ∨ erc = "erc1155"

/-- `getAllNftByUserAddress`: validates `erc` (`erc_valid`) and
`page_index` (`non_negative`); `user_address` and `page_size` carry no
validator.  The body caps `page_size` at `MAX_PAGE_SIZE` via `min`. -/
def getAllNftByUserAddress (st : ClientState) (w : World) (erc user_address : String)
    (page_index page_size : Int) (export_file_name : String) :
    ClientState × World × Except ApiError MakeResult :=
  if ¬ ercValid erc then (st, w, .error (.invalidArgument "erc"))
  else if page_index < 0 then (st, w, .error (.invalidArgument "page_index"))
  else
    api_request st w "getAllNftByUserAddress"
      (some (.obj [("erc", .str erc), ("walletType", .num 3),
                   ("page_index", .num page_index),
                   ("page_size", .num (min page_size MAX_PAGE_SIZE)),
                   ("user_address", .str user_address)]))
      export_file_name false

/-- `getGroupByNftContract`: validates `erc` only; `user_address` carries
no validator. -/
def getGroupByNftContract (st : ClientState) (w : World) (erc user_address : String)
    (export_file_name : String) :
    ClientState × World × Except ApiError MakeResult :=
  if ¬ ercValid erc then (st, w, .error (.invalidArgument "erc"))
  else
    api_request st w "getGroupByNftContract"
      (some (.obj [("erc", .str erc), ("user_address", .str user_address)]))
      export_file_name false

/-- `getMintByUserAddress`: validates `page_index`, `page_size`
(`non_negative`) and `user_address` (`non_blank`); the body places
`page_size` unchanged (no `MAX_PAGE_SIZE` cap). -/
def getMintByUserAddress (st : ClientState) (w : World) (page_index page_size : Int)
    (user_address : String) (export_file_name : String) :
    ClientState × World × Except ApiError MakeResult :=
  if page_index < 0 then (st, w, .error (.invalidArgument "page_index"))
  else if page_size < 0 then (st, w, .error (.invalidArgument "page_size"))
  else if isBlank user_address then (st, w, .error (.invalidArgument "user_address"))
  else
    api_request st w "getMintByUserAddress"
      (some (.obj [("page_index", .num page_index),
                   ("page_size", .num page_size),
                   ("user_address", .str user_address)]))
      export_file_name false

/-- `getMintByUserAddressAndNftAddress`: validates `nft_address`,
`page_index`, `page_size`, `user_address`; `page_size` is uncapped. -/
def getMintByUserAddressAndNftAddress (st : ClientState) (w : World)
    (nft_address : String) (page_index page_size : Int) (user_address : String)
    (export_file_name : String) :
    ClientState × World × Except ApiError MakeResult :=
  if isBlank nft_address then (st, w, .error (.invalidArgument "nft_address"))
  else if page_index < 0 then (st, w, .error (.invalidArgument "page_index"))
  else if page_size < 0 then (st, w, .error (.invalidArgument "page_size"))
  else if isBlank user_address then (st, w, .error (.invalidArgument "user_address"))
  else
    api_request st w "getMintByUserAddressAndNftAddress"
      (some (.obj [("nft_address", .str nft_address),
                   ("page_index", .num page_index),
                   ("page_size", .num page_size),
                   ("user_address", .str user_address)]))
      export_file_name false

/-- `getNFTRecordByContract`: validates `nft_address`, `page_index`,
`page_size`; `page_size` is uncapped. -/
def getNFTRecordByContract (st : ClientState) (w : World) (nft_address : String)
    (page_index page_size : Int) (export_file_name : String) :
    ClientState × World × Except ApiError MakeResult :=
  if isBlank nft_address then (st, w, .error (.invalidArgument "nft_address"))
  else if page_index < 0 then (st, w, .error (.invalidArgument "page_index"))
  else if page_size < 0 then (st, w, .error (.invalidArgument "page_size"))
  else
    api_request st w "getNFTRecordByContract"
      (some (.obj [("nft_address", .str nft_address),
                   ("page_index", .num page_index),
                   ("page_size", .num page_size)]))
      export_file_name false

/-- `getNftByContractAndUserAddress`: validates `nft_address`,
`page_index`, `page_size`, `user_address`; `page_size` is uncapped. -/
def getNftByContractAndUserAddress (st : ClientState) (w : World)
    (nft_address : String) (page_index page_size : Int) (user_address : String)
    (export_file_name : String) :
    ClientState × World × Except ApiError MakeResult :=
  if isBlank nft_address then (st, w, .error (.invalidArgument "nft_address"))
  else if page_index < 0 then (st, w, .error (.invalidArgument "page_index"))
  else if page_size < 0 then (st, w, .error (.invalidArgument "page_size"))
  else if isBlank user_address then (st, w, .error (.invalidArgument "user_address"))
  else
    api_request st w "getNftByContractAndUserAddress"
      (some (.obj [("nft_address", .str nft_address),
                   ("page_index", .num page_index),
                   ("page_size", .num page_size),
                   ("user_address", .str user_address)]))
      export_file_name false

/-- `getRecordByUserAddressAndTokenId`: validates `nft_address`,
`page_index`, `page_size`, `token_id`, `user_address`; `page_size` is
uncapped. -/
def getRecordByUserAddressAndTokenId (st : ClientState) (w : World)
    (nft_address : String) (page_index page_size : Int) (token_id user_address : String)
    (export_file_name : String) :
    ClientState × World × Except ApiError MakeResult :=
  if isBlank nft_address then (st, w, .error (.invalidArgument "nft_address"))
  else if page_index < 0 then (st, w, .error (.invalidArgument "page_index"))
  else if page_size < 0 then (st, w, .error (.invalidArgument "page_size"))
  else if isBlank token_id then (st, w, .error (.invalidArgument "token_id"))
  else if isBlank user_address then (st, w, .error (.invalidArgument "user_address"))
  else
    api_request st w "getRecordByUserAddressAndTokenId"
      (some (.obj [("nft_address", .str nft_address),
                   ("page_index", .num page_index),
                   ("page_size", .num page_size),
                   ("token_id", .str token_id),
                   ("user_address", .str user_address)]))
      export_file_name false

/-- `getSingleNft`: validates `nft_address` and `token_id`. -/
def getSingleNft (st : ClientState) (w : World) (nft_address token_id : String)
    (export_file_name : String) :
    ClientState × World × Except ApiError MakeResult :=
  if isBlank nft_address then (st, w, .error (.invalidArgument "nft_address"))
  else if isBlank token_id then (st, w, .error (.invalidArgument "token_id"))
  else
    api_request st w "getSingleNft"
      (some (.obj [("nft_address", .str nft_address), ("token_id", .str token_id)]))
      export_file_name false

/-- `getSingleNftRecord`: validates `nft_address`, `page_index`,
`page_size`, `token_id`; `page_size` is uncapped. -/
def getSingleNftRecord (st : ClientState) (w : World) (nft_address : String)
    (page_index page_size : Int) (token_id : String) (export_file_name : String) :
    ClientState × World × Except ApiError MakeResult :=
  if isBlank nft_address then (st, w, .error (.invalidArgument "nft_address"))
  else if page_index < 0 then (st, w, .error (.invalidArgument "page_index"))
  else if page_size < 0 then (st, w, .error (.invalidArgument "page_size"))
  else if isBlank token_id then (st, w, .error (.invalidArgument "token_id"))
  else
    api_request st w "getSingleNftRecord"
      (some (.obj [("nft_address", .str nft_address),
                   ("page_index", .num page_index),
                   ("page_size", .num page_size),
                   ("token_id", .str token_id)]))
      export_file_name false

/-- `getStates`: `nft_address` is a JSON array of contract addresses and
carries no validator. -/
def getStates (st : ClientState) (w : World) (nft_address : Json)
    (export_file_name : String) :
    ClientState × World × Except ApiError MakeResult :=
  api_request st w "getStates"
    (some (.obj [("nft_address", nft_address)]))
    export_file_name false

/-- `getUserRecordByContract`: validates `nft_address`, `page_index`,
`page_size`, `user_address`; `page_size` is uncapped. -/
def getUserRecordByContract (st : ClientState) (w : World) (nft_address : String)
    (page_index page_size : Int) (user_address : String) (export_file_name : String) :
    ClientState × World × Except ApiError MakeResult :=
  if isBlank nft_address then (st, w, .error (.invalidArgument "nft_address"))
  else if page_index < 0 then (st, w, .error (.invalidArgument "page_index"))
  else if page_size < 0 then (st, w, .error (.invalidArgument "page_size"))
  else if isBlank user_address then (st, w, .error (.invalidArgument "user_address"))
  else
    api_request st w "getUserRecordByContract"
      (some (.obj [("nft_address", .str nft_address),
                   ("page_index", .num page_index),
                   ("page_size", .num page_size),
                   ("user_address", .str user_address)]))
      export_file_name false

/-- `getUserRecordByUserAddress`: validates `page_index`, `page_size`,
`user_address`; `page_size` is uncapped. -/
def getUserRecordByUserAddress (st : ClientState) (w : World)
    (page_index page_size : Int) (user_address : String) (export_file_name : String) :
    ClientState × World × Except ApiError MakeResult :=
  if page_index < 0 then (st, w, .error (.invalidArgument "page_index"))
  else if page_size < 0 then (st, w, .error (.invalidArgument "page_size"))
  else if isBlank user_address then (st, w, .error (.invalidArgument "user_address"))
  else
    api_request st w "getUserRecordByUserAddress"
      (some (.obj [("page_index", .num page_index),
                   ("page_size", .num page_size),
                   ("user_address", .str user_address)]))
      export_file_name false

theorem isBlank_apiUrl (a b : String) : isBlank (a ++ "/" ++ b) = false := by
  unfold isBlank
  simp [String.data_append, List.all_append]

theorem isBlank_authUrl (apiKey apiSecret : String) :
    isBlank (authUrl apiKey apiSecret) = false := by
  unfold isBlank authUrl
  simp [String.data_append, List.all_append]

theorem lookupKey_setKey (h : List (String × Json)) (k : String) (v : Json) :
    lookupKey (setKey h k v) k = some v := by
  induction h with
  | nil => simp [setKey, lookupKey]
  | cons kv rest ih =>
    obtain ⟨k1, v1⟩ := kv
    by_cases hk : k1 = k
    · simp [setKey, hk, lookupKey]
    · simp [setKey, hk, lookupKey, ih]

/-- The request issued by `_api_request` for a given client state: the
endpoint URL, the current header template, and the body. -/
def apiReq (st : ClientState) (endpoint : String) (d : Option Json) : HttpRequest :=
  ⟨st.api_url ++ "/" ++ endpoint, some st.headers, d⟩

/-- The request issued by the authentication exchange: raw key/secret in
the URL query string, no headers, no body. -/
def authReq (st : ClientState) : HttpRequest :=
  ⟨authUrl st.apiKey st.apiSecret, none, none⟩

theorem make_request_error (w : World) (url : String) (hs : Option (List (String × Json)))
    (d : Option Json) (ex : String) (rr : Bool) (e : ApiError)
    (hurl : isBlank url = false)
    (hout : responseOutcome (w.oracle w.sent.length) = .error e) :
    make_request w url hs d ex rr =
      ({ w with sent := w.sent ++ [⟨url, hs, d⟩] }, .error e) := by
  unfold make_request
  rw [hurl]
  simp [hout]

theorem make_request_ok (w : World) (url : String) (hs : Option (List (String × Json)))
    (d : Option Json) (ex : String) (rr : Bool) (dat : Json)
    (hurl : isBlank url = false)
    (hout : responseOutcome (w.oracle w.sent.length) = .ok dat) :
    make_request w url hs d ex rr =
      ({ w with sent := w.sent ++ [⟨url, hs, d⟩],
                files := if ex = "" then w.files
                         else w.files ++ [(ex, serializeJson dat)] },
       .ok (if rr then .response (w.oracle w.sent.length) else .data dat)) := by
  unfold make_request
  rw [hurl]
  simp only [Bool.false_eq_true, if_false, hout]
  split <;> simp

theorem authenticate_ok (st : ClientState) (w : World) (tok : Json) (secs : Int)
    (hauth : authOutcome (w.oracle w.sent.length) = .ok (tok, secs)) :
    authenticate st w =
      (authedState st tok (w.time + secs),
       { w with sent := w.sent ++ [authReq st] }, .ok ()) := by
  unfold authOutcome at hauth
  cases hro : responseOutcome (w.oracle w.sent.length) with
  | error e => simp only [hro] at hauth; simp at hauth
  | ok result =>
    simp only [hro] at hauth
    cases hat : subscript result "accessToken" with
    | error e => simp only [hat] at hauth; simp at hauth
    | ok tok0 =>
      simp only [hat] at hauth
      cases hexp : subscript result "expiration" with
      | error e => simp only [hexp] at hauth; simp at hauth
      | ok expv =>
        simp only [hexp] at hauth
        cases expv with
        | num secs0 =>
          simp at hauth
          obtain ⟨rfl, rfl⟩ := hauth
          unfold authenticate
          rw [make_request_ok w _ none none "" false result (isBlank_authUrl _ _) hro]
          simp [hat, hexp, authedState, authReq]
        | null => simp at hauth
        | bool b => simp at hauth
        | str s => simp at hauth
        | arr xs => simp at hauth
        | obj fs => simp at hauth

theorem authenticate_error (st : ClientState) (w : World) (ea : ApiError)
    (hauth : authOutcome (w.oracle w.sent.length) = .error ea) :
    ∃ st2, authenticate st w =
      (st2, { w with sent := w.sent ++ [authReq st] }, .error ea) := by
  unfold authOutcome at hauth
  cases hro : responseOutcome (w.oracle w.sent.length) with
  | error e =>
    simp only [hro] at hauth
    simp at hauth
    subst hauth
    refine ⟨st, ?_⟩
    unfold authenticate
    rw [make_request_error w _ none none "" false e (isBlank_authUrl _ _) hro]
    simp [authReq]
  | ok result =>
    simp only [hro] at hauth
    cases hat : subscript result "accessToken" with
    | error e =>
      simp only [hat] at hauth
      simp at hauth
      subst hauth
      refine ⟨st, ?_⟩
      unfold authenticate
      rw [make_request_ok w _ none none "" false result (isBlank_authUrl _ _) hro]
      simp [hat, authReq]
    | ok tok0 =>
      simp only [hat] at hauth
      cases hexp : subscript result "expiration" with
      | error e =>
        simp only [hexp] at hauth
        simp at hauth
        subst hauth
        refine ⟨{ st with accessToken := some tok0 }, ?_⟩
        unfold authenticate
        rw [make_request_ok w _ none none "" false result (isBlank_authUrl _ _) hro]
        simp [hat, hexp, authReq]
      | ok expv =>
        simp only [hexp] at hauth
        cases expv with
        | num secs0 => simp at hauth
        | null =>
          simp at hauth
          subst hauth
          refine ⟨{ st with accessToken := some tok0 }, ?_⟩
          unfold authenticate
          rw [make_request_ok w _ none none "" false result (isBlank_authUrl _ _) hro]
          simp [hat, hexp, authReq]
        | bool b =>
          simp at hauth
          subst hauth
          refine ⟨{ st with accessToken := some tok0 }, ?_⟩
          unfold authenticate
          rw [make_request_ok w _ none none "" false result (isBlank_authUrl _ _) hro]
          simp [hat, hexp, authReq]
        | str s =>
          simp at hauth
          subst hauth
          refine ⟨{ st with accessToken := some tok0 }, ?_⟩
          unfold authenticate
          rw [make_request_ok w _ none none "" false result (isBlank_authUrl _ _) hro]
          simp [hat, hexp, authReq]
        | arr xs =>
          simp at hauth
          subst hauth
          refine ⟨{ st with accessToken := some tok0 }, ?_⟩
          unfold authenticate
          rw [make_request_ok w _ none none "" false result (isBlank_authUrl _ _) hro]
          simp [hat, hexp, authReq]
        | obj fs =>
          simp at hauth
          subst hauth
          refine ⟨{ st with accessToken := some tok0 }, ?_⟩
          unfold authenticate
          rw [make_request_ok w _ none none "" false result (isBlank_authUrl _ _) hro]
          simp [hat, hexp, authReq]

theorem api_request_first_ok (st : ClientState) (w : World) (endpoint : String)
    (d : Option Json) (ex : String) (rr : Bool) (dat : Json)
    (hep : isBlank endpoint = false)
    (hout : responseOutcome (w.oracle w.sent.length) = .ok dat) :
    api_request st w endpoint d ex rr =
      (st, { w with sent := w.sent ++ [apiReq st endpoint d],
                    files := if ex = "" then w.files
                             else w.files ++ [(ex, serializeJson dat)] },
       .ok (if rr then .response (w.oracle w.sent.length) else .data dat)) := by
  unfold api_request
  rw [hep]
  simp only [Bool.false_eq_true, if_false]
  rw [make_request_ok w _ (some st.headers) d ex rr dat (isBlank_apiUrl _ _) hout]
  simp [apiReq]

theorem api_request_retry (st : ClientState) (w : World) (endpoint : String)
    (d : Option Json) (ex : String) (rr : Bool) (e1 : ApiError) (tok : Json) (secs : Int)
    (hep : isBlank endpoint = false)
    (h1 : responseOutcome (w.oracle w.sent.length) = .error e1)
    (hauth : authOutcome (w.oracle (w.sent.length + 1)) = .ok (tok, secs)) :
    api_request st w endpoint d ex rr =
      (authedState st tok (w.time + secs),
       make_request { w with sent := w.sent ++ [apiReq st endpoint d, authReq st] }
         (st.api_url ++ "/" ++ endpoint)
         (some (setKey st.headers "Access-Token" tok)) d ex rr) := by
  unfold api_request
  rw [hep]
  simp only [Bool.false_eq_true, if_false]
  rw [make_request_error w _ (some st.headers) d ex rr e1 (isBlank_apiUrl _ _) h1]
  dsimp only
  rw [authenticate_ok st _ tok secs (by simpa using hauth)]
  simp [apiReq, authReq, authedState]

theorem transportCheck_none (resp : HttpResponse)
    (hst : resp.status_code ∉ ([400, 401, 403, 495, 504] : List Int)) :
    transportCheck resp = none := by
  simp only [List.mem_cons, List.mem_singleton, not_or] at hst
  obtain ⟨h1, h2, h3, h4, h5, _⟩ := hst
  simp [transportCheck, h1, h2, h3, h4, h5]

/-- C5: in the send operation (`_make_request`) the transport-level status
code is inspected before the body: status 400, 401, 403, 495 or 504 raises
respectively a BadRequest, Unauthorized, Forbidden, TlsError or
GatewayTimeout kind error — the response is universally quantified, so the
result is independent of the body, which is never parsed — and any other
transport status falls through to body inspection (`inspectBody`). -/
theorem C5_transport_status_first (resp : HttpResponse) :
    (resp.status_code = 400 →
      responseOutcome resp = .error (.valueError resp.text) ∧
      (ApiError.valueError resp.text).kind = .badRequest) ∧
    (resp.status_code = 401 →
      responseOutcome resp = .error (.httpError resp.text) ∧
      (ApiError.httpError resp.text).kind = .unauthorized) ∧
    (resp.status_code = 403 →
      responseOutcome resp = .error (.connectionError "The server blocked access.") ∧
      (ApiError.connectionError "The server blocked access.").kind = .forbidden) ∧
    (resp.status_code = 495 →
      responseOutcome resp = .error (.sslError "SSL certificate error") ∧
      (ApiError.sslError "SSL certificate error").kind = .tlsError) ∧
    (resp.status_code = 504 →
      responseOutcome resp = .error (.timeoutError "The server reported a gateway time-out error.") ∧
      (ApiError.timeoutError "The server reported a gateway time-out error.").kind = .gatewayTimeout) ∧
    (resp.status_code ∉ ([400, 401, 403, 495, 504] : List Int) →
      responseOutcome resp = inspectBody resp) := by
  refine ⟨?_, ?_, ?_, ?_, ?_, ?_⟩
  · intro h
    constructor
    · simp [responseOutcome, transportCheck, h]
    · rfl
  · intro h
    constructor
    · simp [responseOutcome, transportCheck, h]
    · rfl
  · intro h
    constructor
    · simp [responseOutcome, transportCheck, h]
    · rfl
  · intro h
    constructor
    · simp [responseOutcome, transportCheck, h]
    · rfl
  · intro h
    constructor
    · simp [responseOutcome, transportCheck, h]
    · rfl
  · intro h
    simp [responseOutcome, transportCheck_none resp h]

theorem C5_witness :
    (responseOutcome ⟨400, "bad request", none⟩ = .error (.valueError "bad request")) ∧
    (responseOutcome ⟨401, "denied", none⟩ = .error (.httpError "denied")) ∧
    (responseOutcome ⟨495, "", none⟩ = .error (.sslError "SSL certificate error")) ∧
    (responseOutcome ⟨200, "", none⟩ = inspectBody ⟨200, "", none⟩) ∧
    (responseOutcome ⟨500, "", none⟩ = inspectBody ⟨500, "", none⟩) :=
  ⟨((C5_transport_status_first _).1 rfl).1,
   ((C5_transport_status_first _).2.1 rfl).1,
   ((C5_transport_status_first _).2.2.2.1 rfl).1,
   (C5_transport_status_first _).2.2.2.2.2 (by decide),
   (C5_transport_status_first _).2.2.2.2.2 (by decide)⟩

/-- C6: for every response whose transport status falls through to body
inspection, if the parsed JSON body lacks a `code` field or lacks a
`data` field, the send operation raises a MalformedResponse-kind error
even though the transport-level status indicated success. -/
theorem C6_missing_envelope_field_malformed (w : World) (url : String)
    (hs : Option (List (String × Json))) (b : Option Json) (ex : String) (rr : Bool)
    (fields : List (String × Json))
    (hurl : isBlank url = false)
    (hstatus : transportCheck (w.oracle w.sent.length) = none)
    (hbody : (w.oracle w.sent.length).jsonBody = some (.obj fields))
    (hmiss : lookupKey fields "code" = none ∨ lookupKey fields "data" = none) :
    ∃ e, make_request w url hs b ex rr =
      ({ w with sent := w.sent ++ [⟨url, hs, b⟩] }, .error e) ∧
      e.kind = .malformedResponse := by
  have hout : ∃ e, responseOutcome (w.oracle w.sent.length) = .error e ∧
      e.kind = .malformedResponse := by
    rcases hmiss with hcode | hdata
    · refine ⟨.noCode, ?_, rfl⟩
      simp [responseOutcome, hstatus, inspectBody, hbody, hcode]
    · cases hcode : lookupKey fields "code" with
      | none =>
        refine ⟨.noCode, ?_, rfl⟩
        simp [responseOutcome, hstatus, inspectBody, hbody, hcode]
      | some code =>
        refine ⟨.noData, ?_, rfl⟩
        simp [responseOutcome, hstatus, inspectBody, hbody, hcode, hdata]
  obtain ⟨e, he, hk⟩ := hout
  exact ⟨e, make_request_error w url hs b ex rr e hurl he, hk⟩

theorem C6_witness :
    ∃ e, make_request { oracle := fun _ => ⟨200, "", some (.obj [("code", .num 0)])⟩,
                        time := 0, sent := [], files := [] }
        "https://api.example/x" none none "" false =
      ({ oracle := fun _ => ⟨200, "", some (.obj [("code", .num 0)])⟩,
         time := 0, sent := [⟨"https://api.example/x", none, none⟩], files := [] }, .error e) ∧
      e.kind = .malformedResponse :=
  C6_missing_envelope_field_malformed _ _ _ _ _ _ _ (by decide) (by decide) rfl
    (Or.inr rfl)

/-- C9 (implicit): for every response whose transport status is outside
the five mapped codes and whose body contains both `code` and `data`, if
the body's `code` is a number also outside the five mapped codes (e.g.
500), the send operation treats the response as a success and returns the
`data` value; no error is raised for other embedded status codes. -/
theorem C9_nonerror_embedded_code_is_success (w : World) (url : String)
    (hs : Option (List (String × Json))) (b : Option Json) (ex : String)
    (fields : List (String × Json)) (n : Int) (d : Json)
    (hurl : isBlank url = false)
    (hst : (w.oracle w.sent.length).status_code ∉ ([400, 401, 403, 495, 504] : List Int))
    (hbody : (w.oracle w.sent.length).jsonBody = some (.obj fields))
    (hcode : lookupKey fields "code" = some (.num n))
    (hn : n ∉ ([400, 401, 403, 495, 504] : List Int))
    (hdata : lookupKey fields "data" = some d) :
    make_request w url hs b ex false =
      ({ w with sent := w.sent ++ [⟨url, hs, b⟩],
                files := if ex = "" then w.files
                         else w.files ++ [(ex, serializeJson d)] },
       .ok (.data d)) := by
  simp only [List.mem_cons, List.mem_singleton, not_or] at hn
  obtain ⟨h1, h2, h3, h4, h5, _⟩ := hn
  have hout : responseOutcome (w.oracle w.sent.length) = .ok d := by
    simp [responseOutcome, transportCheck_none _ hst, inspectBody, hbody, hcode, hdata,
      bodyCodeCheck, h1, h2, h3, h4, h5]
  have := make_request_ok w url hs b ex false d hurl hout
  simpa using this

theorem C9_witness :
    make_request { oracle := fun _ => ⟨200, "",
                     some (.obj [("code", .num 500), ("data", .str "payload")])⟩,
                   time := 0, sent := [], files := [] }
      "https://api.example/x" none none "" false =
      ({ oracle := fun _ => ⟨200, "",
           some (.obj [("code", .num 500), ("data", .str "payload")])⟩,
         time := 0, sent := [⟨"https://api.example/x", none, none⟩], files := [] },
       .ok (.data (.str "payload"))) := by
  have h := C9_nonerror_embedded_code_is_success
    { oracle := fun _ => ⟨200, "", some (.obj [("code", .num 500), ("data", .str "payload")])⟩,
      time := 0, sent := [], files := [] }
    "https://api.example/x" none none "" [("code", .num 500), ("data", .str "payload")]
    500 (.str "payload") (by decide) (by decide) rfl rfl (by decide) rfl
  simpa using h

theorem make_request_sent (w : World) (url : String) (hs : Option (List (String × Json)))
    (d : Option Json) (ex : String) (rr : Bool)
    (hurl : isBlank url = false) :
    ((make_request w url hs d ex rr).1).sent = w.sent ++ [⟨url, hs, d⟩] := by
  cases hout : responseOutcome (w.oracle w.sent.length) with
  | error e => rw [make_request_error w url hs d ex rr e hurl hout]
  | ok dat => rw [make_request_ok w url hs d ex rr dat hurl hout]

/-- C1: for every `_api_request` call whose first send attempt fails with
any error `e1`, the pipeline authenticates exactly once and retries
exactly once — the request log grows by exactly the first attempt, the
auth exchange and the retry, and nothing more — and when the retry also
fails with `e2`, the error returned to the caller is `e2`, the retry's
error, not the first attempt's `e1`. -/
theorem C1_blind_retry_semantics (st : ClientState) (w : World) (endpoint : String)
    (d : Option Json) (ex : String) (rr : Bool) (e1 e2 : ApiError) (tok : Json) (secs : Int)
    (hep : isBlank endpoint = false)
    (h1 : responseOutcome (w.oracle w.sent.length) = .error e1)
    (hauth : authOutcome (w.oracle (w.sent.length + 1)) = .ok (tok, secs))
    (h2 : responseOutcome (w.oracle (w.sent.length + 2)) = .error e2) :
    api_request st w endpoint d ex rr =
      (authedState st tok (w.time + secs),
       { w with sent := w.sent ++ [apiReq st endpoint d, authReq st,
           apiReq (authedState st tok (w.time + secs)) endpoint d] },
       .error e2) := by
  rw [api_request_retry st w endpoint d ex rr e1 tok secs hep h1 hauth]
  rw [make_request_error _ _ _ _ _ _ e2 (isBlank_apiUrl _ _) (by simpa using h2)]
  simp [apiReq, authReq, authedState]

theorem api_request_auth_failure (st : ClientState) (w : World) (endpoint : String)
    (d : Option Json) (ex : String) (rr : Bool) (e1 ea : ApiError)
    (hep : isBlank endpoint = false)
    (h1 : responseOutcome (w.oracle w.sent.length) = .error e1)
    (hauth : authOutcome (w.oracle (w.sent.length + 1)) = .error ea) :
    ∃ st2, api_request st w endpoint d ex rr =
      (st2, { w with sent := w.sent ++ [apiReq st endpoint d, authReq st] },
       .error ea) := by
  unfold api_request
  rw [hep]
  simp only [Bool.false_eq_true, if_false]
  rw [make_request_error w _ (some st.headers) d ex rr e1 (isBlank_apiUrl _ _) h1]
  dsimp only
  obtain ⟨st2, hA⟩ := authenticate_error st
    { w with sent := w.sent ++ [⟨st.api_url ++ "/" ++ endpoint, some st.headers, d⟩] } ea
    (by simpa using hauth)
  rw [hA]
  refine ⟨st2, ?_⟩
  simp [apiReq, authReq]

/-- C10: in the authenticated-request operation (`_api_request`), if the
first send attempt raises and the subsequent `authenticate()` call itself
raises, the authentication error propagates to the caller and the second
send attempt is never issued (exactly two requests are sent: the first
attempt and the auth exchange). -/
theorem C10_auth_failure_propagates (st : ClientState) (w : World) (endpoint : String)
    (d : Option Json) (ex : String) (rr : Bool) (e1 ea : ApiError)
    (hep : isBlank endpoint = false)
    (h1 : responseOutcome (w.oracle w.sent.length) = .error e1)
    (hauth : authOutcome (w.oracle (w.sent.length + 1)) = .error ea) :
    ∃ st2, api_request st w endpoint d ex rr =
      (st2, { w with sent := w.sent ++ [apiReq st endpoint d, authReq st] },
       .error ea) :=
  api_request_auth_failure st w endpoint d ex rr e1 ea hep h1 hauth

/-- C2: a transport response with HTTP status 200 and body
`obj [code 401, data null]` produces the very same Unauthorized-kind error
(`httpError` carrying `response.text`) as a transport response with HTTP
status 401, and in `_api_request` either case triggers exactly one
re-authentication followed by exactly one retry (the log grows by exactly
the first attempt, the auth exchange and the retry). -/
theorem C2_inbody_401_equals_transport_401 (st : ClientState) (w : World)
    (endpoint : String) (d : Option Json) (ex : String) (rr : Bool)
    (tok : Json) (secs : Int)
    (hep : isBlank endpoint = false)
    (hbad : (w.oracle w.sent.length).status_code = 401 ∨
      ((w.oracle w.sent.length).status_code = 200 ∧
       (w.oracle w.sent.length).jsonBody =
         some (.obj [("code", .num 401), ("data", .null)])))
    (hauth : authOutcome (w.oracle (w.sent.length + 1)) = .ok (tok, secs)) :
    responseOutcome (w.oracle w.sent.length) =
      .error (.httpError (w.oracle w.sent.length).text) ∧
    (ApiError.httpError (w.oracle w.sent.length).text).kind = .unauthorized ∧
    ((api_request st w endpoint d ex rr).2.1).sent =
      w.sent ++ [apiReq st endpoint d, authReq st,
        apiReq (authedState st tok (w.time + secs)) endpoint d] := by
  have hout : responseOutcome (w.oracle w.sent.length) =
      .error (.httpError (w.oracle w.sent.length).text) := by
    rcases hbad with h401 | ⟨h200, hbody⟩
    · simp [responseOutcome, transportCheck, h401]
    · simp [responseOutcome, transportCheck, h200, inspectBody, hbody, lookupKey, bodyCodeCheck]
  refine ⟨hout, rfl, ?_⟩
  rw [api_request_retry st w endpoint d ex rr _ tok secs hep hout hauth]
  show (make_request { w with sent := w.sent ++ [apiReq st endpoint d, authReq st] }
    (st.api_url ++ "/" ++ endpoint) (some (setKey st.headers "Access-Token" tok))
    d ex rr).1.sent = _
  rw [make_request_sent _ _ _ _ _ _ (isBlank_apiUrl _ _)]
  simp [apiReq, authReq, authedState]

def sampleClient : ClientState :=
  { apiKey := "key", apiSecret := "secret",
    api_url := "https://restapi.nftscan.com/api//v1",
    accessToken := none, expiration := none,
    headers := [("Content-Type", .str "application/json")] }

def authOkResp : HttpResponse :=
  ⟨200, "", some (.obj [("code", .num 0),
    ("data", .obj [("accessToken", .str "tok123"), ("expiration", .num 3600)])])⟩

def authBadResp : HttpResponse :=
  ⟨200, "", some (.obj [("code", .num 0),
    ("data", .obj [("expiration", .num 3600)])])⟩

def c1World : World :=
  { oracle := fun n => if n = 0 then ⟨500, "first", none⟩
      else if n = 1 then authOkResp else ⟨504, "slow", none⟩,
    time := 0, sent := [], files := [] }

theorem C1_witness :
    api_request sampleClient c1World "ep" none "" false =
      (authedState sampleClient (.str "tok123") (0 + 3600),
       { c1World with sent := [apiReq sampleClient "ep" none, authReq sampleClient,
           apiReq (authedState sampleClient (.str "tok123") (0 + 3600)) "ep" none] },
       .error (.timeoutError "The server reported a gateway time-out error.")) := by
  have h := C1_blind_retry_semantics sampleClient c1World "ep" none "" false
    .jsonDecodeError (.timeoutError "The server reported a gateway time-out error.") (.str "tok123") 3600
    (by decide) (by rfl) (by rfl) (by rfl)
  simpa [c1World] using h

def c10World : World :=
  { oracle := fun n => if n = 0 then ⟨500, "first", none⟩ else authBadResp,
    time := 0, sent := [], files := [] }

theorem C10_witness :
    ∃ st2, api_request sampleClient c10World "ep" none "" false =
      (st2, { c10World with sent := [apiReq sampleClient "ep" none, authReq sampleClient] },
       .error (.keyError "accessToken")) := by
  have h := C10_auth_failure_propagates sampleClient c10World "ep" none "" false
    .jsonDecodeError (.keyError "accessToken") (by decide) (by rfl) (by rfl)
  simpa [c10World] using h

def c2World : World :=
  { oracle := fun n => if n = 0
      then ⟨200, "embedded", some (.obj [("code", .num 401), ("data", .null)])⟩
      else if n = 1 then authOkResp else ⟨200, "", some (.obj [("code", .num 0), ("data", .null)])⟩,
    time := 0, sent := [], files := [] }

theorem C2_witness :
    responseOutcome (c2World.oracle 0) = .error (.httpError "embedded") ∧
    (ApiError.httpError "embedded").kind = .unauthorized ∧
    ((api_request sampleClient c2World "ep" none "" false).2.1).sent =
      [apiReq sampleClient "ep" none, authReq sampleClient,
       apiReq (authedState sampleClient (.str "tok123") (0 + 3600)) "ep" none] := by
  have h := C2_inbody_401_equals_transport_401 sampleClient c2World "ep" none "" false
    (.str "tok123") 3600 (by decide) (Or.inr ⟨rfl, rfl⟩) (by rfl)
  simpa [c2World] using h

theorem authenticate_sent (st : ClientState) (w : World) :
    ((authenticate st w).2.1).sent = w.sent ++ [authReq st] := by
  unfold authenticate
  cases hro : responseOutcome (w.oracle w.sent.length) with
  | error e =>
    rw [make_request_error w _ none none "" false e (isBlank_authUrl _ _) hro]
    simp [authReq]
  | ok dat =>
    rw [make_request_ok w _ none none "" false dat (isBlank_authUrl _ _) hro]
    simp only [reduceIte, Bool.false_eq_true, if_false]
    split
    · simp [authReq]
    · split <;> simp [authReq]

theorem api_request_sent_head (st : ClientState) (w : World) (endpoint : String)
    (d : Option Json) (ex : String) (rr : Bool)
    (hep : isBlank endpoint = false) :
    ∃ rest, ((api_request st w endpoint d ex rr).2.1).sent =
      w.sent ++ ⟨st.api_url ++ "/" ++ endpoint, some st.headers, d⟩ :: rest := by
  unfold api_request
  rw [hep]
  simp only [Bool.false_eq_true, if_false]
  cases hout : responseOutcome (w.oracle w.sent.length) with
  | ok dat =>
    rw [make_request_ok w _ (some st.headers) d ex rr dat (isBlank_apiUrl _ _) hout]
    exact ⟨[], by simp⟩
  | error e =>
    rw [make_request_error w _ (some st.headers) d ex rr e (isBlank_apiUrl _ _) hout]
    dsimp only
    rcases hA : authenticate st
      { w with sent := w.sent ++ [⟨st.api_url ++ "/" ++ endpoint, some st.headers, d⟩] }
      with ⟨st2, w2, res⟩
    have hw2 : w2.sent = (w.sent ++ [⟨st.api_url ++ "/" ++ endpoint, some st.headers, d⟩])
        ++ [authReq st] := by
      have hgen := authenticate_sent st
        { w with sent := w.sent ++ [⟨st.api_url ++ "/" ++ endpoint, some st.headers, d⟩] }
      rw [hA] at hgen
      exact hgen
    cases res with
    | error ea =>
      refine ⟨[authReq st], ?_⟩
      simp [hw2]
    | ok u =>
      refine ⟨[authReq st, ⟨st.api_url ++ "/" ++ endpoint, some st2.headers, d⟩], ?_⟩
      rw [make_request_sent w2 _ (some st2.headers) d ex rr (isBlank_apiUrl _ _), hw2]
      simp

def okWorld : World :=
  { oracle := fun _ => ⟨200, "", some (.obj [("code", .num 0), ("data", .null)])⟩,
    time := 0, sent := [], files := [] }

/-- C3 counterexample: `getMintByUserAddress` called with page size 500
places `page_size = 500` in the outgoing body, not `min 500 100 = 100`,
so the claimed cap does not apply to the other pageable domain methods. -/
theorem C3_counterexample :
    (((getMintByUserAddress sampleClient okWorld 0 500 "addr" "").2.1).sent.map
      (fun r => r.body)) =
      [some (.obj [("page_index", .num 0), ("page_size", .num 500),
        ("user_address", .str "addr")])] ∧
    ¬ (Json.num 500 = Json.num (min 500 MAX_PAGE_SIZE)) := by
  constructor
  · rfl
  · intro h
    exact absurd (Json.num.inj h) (by decide)

/-- C3 (amended): the `min`-with-100 cap on `page_size` is applied only
by `getAllNftByUserAddress` (500 is sent as 100, 10 as 10); the other
pageable domain methods, e.g. `getMintByUserAddress` and
`getUserRecordByUserAddress`, place the given `page_size` in the outgoing
body unchanged. -/
theorem C3_amended_cap_only_in_getAllNft :
    (∀ (st : ClientState) (w : World) (erc ua : String) (pi ps : Int) (ex : String),
      ercValid erc = true → ¬ pi < 0 →
      ∃ rest, ((getAllNftByUserAddress st w erc ua pi ps ex).2.1).sent =
        w.sent ++ ⟨st.api_url ++ "/" ++ "getAllNftByUserAddress", some st.headers,
          some (.obj [("erc", .str erc), ("walletType", .num 3),
            ("page_index", .num pi), ("page_size", .num (min ps MAX_PAGE_SIZE)),
            ("user_address", .str ua)])⟩ :: rest) ∧
    (∀ (st : ClientState) (w : World) (pi ps : Int) (ua ex : String),
      ¬ pi < 0 → ¬ ps < 0 → isBlank ua = false →
      ∃ rest, ((getMintByUserAddress st w pi ps ua ex).2.1).sent =
        w.sent ++ ⟨st.api_url ++ "/" ++ "getMintByUserAddress", some st.headers,
          some (.obj [("page_index", .num pi), ("page_size", .num ps),
            ("user_address", .str ua)])⟩ :: rest) ∧
    (∀ (st : ClientState) (w : World) (pi ps : Int) (ua ex : String),
      ¬ pi < 0 → ¬ ps < 0 → isBlank ua = false →
      ∃ rest, ((getUserRecordByUserAddress st w pi ps ua ex).2.1).sent =
        w.sent ++ ⟨st.api_url ++ "/" ++ "getUserRecordByUserAddress", some st.headers,
          some (.obj [("page_index", .num pi), ("page_size", .num ps),
            ("user_address", .str ua)])⟩ :: rest) := by
  refine ⟨?_, ?_, ?_⟩
  · intro st w erc ua pi ps ex herc hpi
    unfold getAllNftByUserAddress
    rw [herc]
    simp only [not_true_eq_false, Bool.true_eq_false, if_neg, if_false, hpi]
    exact api_request_sent_head st w _ _ ex false (by decide)
  · intro st w pi ps ua ex hpi hps hua
    unfold getMintByUserAddress
    simp only [hpi, hps, hua, if_false, Bool.false_eq_true]
    exact api_request_sent_head st w _ _ ex false (by decide)
  · intro st w pi ps ua ex hpi hps hua
    unfold getUserRecordByUserAddress
    simp only [hpi, hps, hua, if_false, Bool.false_eq_true]
    exact api_request_sent_head st w _ _ ex false (by decide)

theorem C3_amended_witness :
    (∃ rest, ((getAllNftByUserAddress sampleClient okWorld "erc721" "addr" 0 500 "").2.1).sent =
      [] ++ ⟨sampleClient.api_url ++ "/" ++ "getAllNftByUserAddress", some sampleClient.headers,
        some (.obj [("erc", .str "erc721"), ("walletType", .num 3),
          ("page_index", .num 0), ("page_size", .num (min 500 MAX_PAGE_SIZE)),
          ("user_address", .str "addr")])⟩ :: rest) ∧
    (∃ rest, ((getMintByUserAddress sampleClient okWorld 0 500 "addr" "").2.1).sent =
      [] ++ ⟨sampleClient.api_url ++ "/" ++ "getMintByUserAddress", some sampleClient.headers,
        some (.obj [("page_index", .num 0), ("page_size", .num 500),
          ("user_address", .str "addr")])⟩ :: rest) :=
  ⟨C3_amended_cap_only_in_getAllNft.1 sampleClient okWorld "erc721" "addr" 0 500 ""
    (by decide) (by decide),
   C3_amended_cap_only_in_getAllNft.2.1 sampleClient okWorld 0 500 "addr" ""
    (by decide) (by decide) (by decide)⟩

/-- C4 counterexample: `getAllNftByUserAddress` called with a blank
`user_address` does not raise — it issues a network request (one request
is logged and the call succeeds), because `user_address` carries no
`non_blank` validator in that method. -/
theorem C4_counterexample :
    ((getAllNftByUserAddress sampleClient okWorld "erc721" "" 0 20 "").2.1).sent.length = 1 ∧
    (getAllNftByUserAddress sampleClient okWorld "erc721" "" 0 20 "").2.2 =
      .ok (.data .null) := by
  constructor
  · rfl
  · rfl

/-- C4 (amended): for the arguments that do carry validators — all three
of `getMintByUserAddress`'s `page_index`/`page_size`/`user_address`, and
`getAllNftByUserAddress`'s `erc`/`page_index` — an invalid value raises an
InvalidArgument-kind error with the world unchanged: no network call is
issued and the re-authenticate-and-retry path is never triggered.
(`getAllNftByUserAddress`'s `user_address` and `page_size` are
unvalidated; see the counterexample.) -/
theorem C4_amended_validated_args_only (st : ClientState) (w : World) :
    (∀ (pi ps : Int) (ua ex : String), (pi < 0 ∨ ps < 0 ∨ isBlank ua = true) →
      ∃ a, getMintByUserAddress st w pi ps ua ex = (st, w, .error (.invalidArgument a)) ∧
        (ApiError.invalidArgument a).kind = .invalidArgument) ∧
    (∀ (erc ua : String) (pi ps : Int) (ex : String), (ercValid erc = false ∨ pi < 0) →
      ∃ a, getAllNftByUserAddress st w erc ua pi ps ex = (st, w, .error (.invalidArgument a)) ∧
        (ApiError.invalidArgument a).kind = .invalidArgument) := by
  constructor
  · intro pi ps ua ex hbad
    unfold getMintByUserAddress
    by_cases hpi : pi < 0
    · exact ⟨"page_index", by rw [if_pos hpi], rfl⟩
    · rw [if_neg hpi]
      by_cases hps : ps < 0
      · exact ⟨"page_size", by rw [if_pos hps], rfl⟩
      · rw [if_neg hps]
        have hua : isBlank ua = true := by
          rcases hbad with h | h | h
          · exact absurd h hpi
          · exact absurd h hps
          · exact h
        exact ⟨"user_address", by rw [hua]; simp, rfl⟩
  · intro erc ua pi ps ex hbad
    unfold getAllNftByUserAddress
    by_cases herc : ercValid erc = true
    · have hpi : pi < 0 := by
        rcases hbad with h | h
        · rw [herc] at h; exact absurd h (by decide)
        · exact h
      rw [herc]
      exact ⟨"page_index", by simp [hpi], rfl⟩
    · have herc2 : ercValid erc = false := by
        cases h : ercValid erc
        · rfl
        · exact absurd h herc
      exact ⟨"erc", by rw [herc2]; simp, rfl⟩

theorem C4_amended_witness :
    (∃ a, getMintByUserAddress sampleClient okWorld 0 20 "   " "" =
      (sampleClient, okWorld, .error (.invalidArgument a)) ∧
      (ApiError.invalidArgument a).kind = .invalidArgument) ∧
    (∃ a, getAllNftByUserAddress sampleClient okWorld "erc20" "addr" 0 20 "" =
      (sampleClient, okWorld, .error (.invalidArgument a)) ∧
      (ApiError.invalidArgument a).kind = .invalidArgument) :=
  ⟨(C4_amended_validated_args_only sampleClient okWorld).1 0 20 "   " ""
    (Or.inr (Or.inr (by decide))),
   (C4_amended_validated_args_only sampleClient okWorld).2 "erc20" "addr" 0 20 ""
    (Or.inl (by decide))⟩

/-- C8: for every successful envelope and every non-empty export target
name, the send operation appends exactly one write of the JSON
serialization of the `data` payload under that name, and parsing the
written contents yields the `data` payload exactly (round trip). -/
theorem C8_export_round_trip (w : World) (url : String)
    (hs : Option (List (String × Json))) (b : Option Json) (ex : String) (rr : Bool) (d : Json)
    (hurl : isBlank url = false)
    (hex : ex ≠ "")
    (hout : responseOutcome (w.oracle w.sent.length) = .ok d) :
    make_request w url hs b ex rr =
      ({ w with sent := w.sent ++ [⟨url, hs, b⟩],
                files := w.files ++ [(ex, serializeJson d)] },
       .ok (if rr then .response (w.oracle w.sent.length) else .data d)) ∧
    parseJson (serializeJson d) = some d := by
  constructor
  · rw [make_request_ok w url hs b ex rr d hurl hout]
    simp [hex]
  · exact parseJson_serializeJson d

def c8World : World :=
  { oracle := fun _ => ⟨200, "",
      some (.obj [("code", .num 0), ("data", .obj [("foo", .str "bar")])])⟩,
    time := 0, sent := [], files := [] }

theorem C8_witness :
    make_request c8World "https://api.example/x" none none "out.json" false =
      ({ c8World with sent := [⟨"https://api.example/x", none, none⟩],
                      files := [("out.json", serializeJson (.obj [("foo", .str "bar")]))] },
       .ok (.data (.obj [("foo", .str "bar")]))) ∧
    parseJson (serializeJson (.obj [("foo", .str "bar")])) =
      some (.obj [("foo", .str "bar")]) := by
  have h := C8_export_round_trip c8World "https://api.example/x" none none "out.json" false
    (.obj [("foo", .str "bar")]) (by decide) (by decide) (by rfl)
  simpa [c8World] using h

/-- A request that carries the bearer-token header matching the token `tok`
most recently obtained (vacuous when no token has been obtained yet). -/
def carriesToken (r : HttpRequest) (tok : Option Json) : Prop :=
  ∃ h, r.headers = some h ∧ ∀ t, tok = some t → lookupKey h "Access-Token" = some t

/-- The authentication exchange request: raw key/secret as query
parameters in the URL, no headers (so no bearer token), no body. -/
def isAuthExchange (st : ClientState) (r : HttpRequest) : Prop :=
  r.url = authUrl st.apiKey st.apiSecret ∧ r.headers = none ∧ r.body = none

/-- The header discipline over the requests newly sent by one
`_api_request` call: the first attempt carries the token held at entry,
the auth exchange (if any) is header-free with credentials in the URL, and
the retry (if any) carries the token freshly obtained by the successful
re-authentication, which is also the final state's token. -/
def c7Trace (st stFinal : ClientState) : List HttpRequest → Prop
  | [] => True
  | [r1] => carriesToken r1 st.accessToken
  | [r1, ra] => carriesToken r1 st.accessToken ∧ isAuthExchange st ra
  | [r1, ra, r2] => carriesToken r1 st.accessToken ∧ isAuthExchange st ra ∧
      (∃ t, stFinal.accessToken = some t ∧ carriesToken r2 (some t))
  | _ => False

/-- The transport scenario refuting the unconditional header invariant:
the first attempt fails, and the authentication exchange responds with a
`data` payload carrying `accessToken` but no `expiration`.  Following the
statement order of `_authenticate`, the client stores the new token, then
raises `KeyError` on `expiration` before the `Access-Token` header merge
is reached, leaving the header template stale. -/
def c7badWorld : World :=
  { oracle := fun n =>
      if n = 0 then ⟨500, "", none⟩
      else if n = 1 then ⟨200, "", some (.obj [("code", .num 0),
        ("data", .obj [("accessToken", .str "newTok")])])⟩
      else ⟨200, "", some (.obj [("code", .num 0), ("data", .null)])⟩,
    time := 0, sent := [], files := [] }

/-- C7 counterexample: the claim as stated — every request either carries
the most recently obtained bearer token or is the auth exchange — fails on
the code.  After an authentication exchange whose response held
`accessToken` without `expiration`, the client's stored token is the
freshly obtained `newTok` (assigned before the `KeyError` on `expiration`
is raised, which precedes the header merge), yet the next call issues a
request that is not the auth exchange and whose headers contain no
`Access-Token` entry at all. -/
theorem C7_counterexample :
    (api_request sampleClient c7badWorld "ep" none "" false).1.accessToken =
      some (.str "newTok") ∧
    ((api_request (api_request sampleClient c7badWorld "ep" none "" false).1
        ((api_request sampleClient c7badWorld "ep" none "" false).2.1)
        "ep" none "" false).2.1).sent =
      [apiReq sampleClient "ep" none, authReq sampleClient,
       ⟨sampleClient.api_url ++ "/" ++ "ep",
        some [("Content-Type", .str "application/json")], none⟩] ∧
    ¬ isAuthExchange (api_request sampleClient c7badWorld "ep" none "" false).1
        ⟨sampleClient.api_url ++ "/" ++ "ep",
         some [("Content-Type", .str "application/json")], none⟩ ∧
    ¬ carriesToken
        ⟨sampleClient.api_url ++ "/" ++ "ep",
         some [("Content-Type", .str "application/json")], none⟩
        ((api_request sampleClient c7badWorld "ep" none "" false).1.accessToken) := by
  refine ⟨rfl, rfl, ?_, ?_⟩
  · intro h
    exact Option.noConfusion h.2.1
  · intro h
    obtain ⟨hh, hheq, hf⟩ := h
    obtain rfl : [("Content-Type", Json.str "application/json")] = hh :=
      Option.some.inj hheq
    have h2 := hf (.str "newTok") rfl
    simp [lookupKey] at h2

/-- C7 (amended): for every `_api_request` call whose entry state's header
template reflects its stored bearer token — true at construction and
re-established by every successful authentication exchange, and broken
only by an exchange response carrying `accessToken` without `expiration`
(the counterexample) — every request issued either is the authentication
exchange itself (raw key/secret as URL query parameters, no headers hence
no bearer token) or carries headers containing the most recently obtained
bearer token: the entry token for the first attempt, and the token just
obtained by the successful re-authentication for the retry, which is also
the final state's token. -/
theorem C7_token_header_invariant (st : ClientState) (w : World) (endpoint : String)
    (d : Option Json) (ex : String) (rr : Bool)
    (st2 : ClientState) (w2 : World) (res : Except ApiError MakeResult)
    (hinv : ∀ t, st.accessToken = some t → lookupKey st.headers "Access-Token" = some t)
    (hrun : api_request st w endpoint d ex rr = (st2, w2, res)) :
    ∃ reqs, w2.sent = w.sent ++ reqs ∧ c7Trace st st2 reqs := by
  by_cases hep : isBlank endpoint = true
  · unfold api_request at hrun
    rw [hep] at hrun
    simp only [if_true] at hrun
    obtain ⟨rfl, rfl, rfl⟩ : st = st2 ∧ w = w2 ∧
        (.error (.invalidArgument "endpoint") : Except ApiError MakeResult) = res := by
      simpa [Prod.ext_iff] using hrun
    exact ⟨[], by simp, trivial⟩
  · rw [Bool.not_eq_true] at hep
    cases hout : responseOutcome (w.oracle w.sent.length) with
    | ok dat =>
      rw [api_request_first_ok st w endpoint d ex rr dat hep hout] at hrun
      obtain ⟨rfl, hw, _⟩ : st = st2 ∧ _ ∧ _ := by simpa [Prod.ext_iff] using hrun
      refine ⟨[⟨st.api_url ++ "/" ++ endpoint, some st.headers, d⟩], ?_, ?_⟩
      · rw [← hw]
        simp [apiReq]
      · exact ⟨st.headers, rfl, hinv⟩
    | error e1 =>
      cases hA : authOutcome (w.oracle (w.sent.length + 1)) with
      | ok p =>
        obtain ⟨tok, secs⟩ := p
        rw [api_request_retry st w endpoint d ex rr e1 tok secs hep hout hA] at hrun
        obtain ⟨hst, hw2x, hresx⟩ : authedState st tok (w.time + secs) = st2 ∧ _ ∧ _ := by
          simpa [Prod.ext_iff] using hrun
        have hw2 : w2 = (make_request
            { w with sent := w.sent ++ [apiReq st endpoint d, authReq st] }
            (st.api_url ++ "/" ++ endpoint)
            (some (setKey st.headers "Access-Token" tok)) d ex rr).1 := hw2x.symm
        refine ⟨[apiReq st endpoint d, authReq st,
          ⟨st.api_url ++ "/" ++ endpoint, some (setKey st.headers "Access-Token" tok), d⟩],
          ?_, ?_, ?_, ?_⟩
        · rw [hw2, make_request_sent _ _ _ _ _ _ (isBlank_apiUrl _ _)]
          simp
        · exact ⟨st.headers, rfl, hinv⟩
        · exact ⟨rfl, rfl, rfl⟩
        · refine ⟨tok, ?_, setKey st.headers "Access-Token" tok, rfl, ?_⟩
          · rw [← hst]
            rfl
          · intro t ht
            obtain rfl : tok = t := by simpa using ht
            exact lookupKey_setKey st.headers "Access-Token" tok
      | error ea =>
        obtain ⟨stx, hx⟩ := api_request_auth_failure st w endpoint d ex rr e1 ea hep hout hA
        rw [hx] at hrun
        obtain ⟨rfl, hw, _⟩ : stx = st2 ∧ _ ∧ _ := by simpa [Prod.ext_iff] using hrun
        refine ⟨[apiReq st endpoint d, authReq st], ?_, ?_, ?_⟩
        · rw [← hw]
        · exact ⟨st.headers, rfl, hinv⟩
        · exact ⟨rfl, rfl, rfl⟩


theorem C7_witness :
    ∃ reqs, ({ c2World with sent := [apiReq sampleClient "ep" none, authReq sampleClient,
        apiReq (authedState sampleClient (.str "tok123") (0 + 3600)) "ep" none] } : World).sent =
      c2World.sent ++ reqs ∧
    c7Trace sampleClient (authedState sampleClient (.str "tok123") (0 + 3600)) reqs :=
  C7_token_header_invariant sampleClient c2World "ep" none "" false
    (authedState sampleClient (.str "tok123") (0 + 3600))
    ({ c2World with sent := [apiReq sampleClient "ep" none, authReq sampleClient,
        apiReq (authedState sampleClient (.str "tok123") (0 + 3600)) "ep" none] })
    (.ok (.data .null))
    (by intro t ht; simp [sampleClient] at ht)
    (by rfl)
